import Mathlib

/-!
Shallow embedding of the order-fulfillment core of the pyoseo oseoserver
repository, translated from src/oseoserver/models.py and
src/oseoserver/tasks.py.  Database rows become Lean structures, Django
query sets become lists, timestamps become integers, and side effects
(saving rows, sending notification emails, dispatching celery jobs) are
made explicit in the returned values.  External collaborators (the
pluggable item processor, the packaging backend, the file cleaner) are
modelled by passing their outcome as an Except value into the embedded
function, exactly at the point where the source performs the call inside
a try block.
-/

/-- Order, batch and order-item status vocabulary, from
oseoserver.constants.OrderStatus as used throughout models.py and
tasks.py. -/
inductive OrderStatus where
  | SUBMITTED
  | ACCEPTED
  | IN_PRODUCTION
  | SUSPENDED
  | CANCELLED
  | COMPLETED
  | FAILED
  | TERMINATED
  | DOWNLOADED
  deriving DecidableEq, Repr

/-- The ordinal dictionary built at the top of Batch.status
(models.py lines 92-102). -/
def statusOrder : OrderStatus → Nat
  | OrderStatus.SUBMITTED => 0
  | OrderStatus.ACCEPTED => 1
  | OrderStatus.IN_PRODUCTION => 2
  | OrderStatus.SUSPENDED => 3
  | OrderStatus.CANCELLED => 4
  | OrderStatus.COMPLETED => 5
  | OrderStatus.FAILED => 6
  | OrderStatus.TERMINATED => 7
  | OrderStatus.DOWNLOADED => 8

/-- The minimum-finding loop of Batch.status (models.py lines 109-112):
status starts at the first element of the status set and every element
with a strictly smaller ordinal replaces it. -/
def minStatusFold (init : OrderStatus) (rest : List OrderStatus) : OrderStatus :=
  rest.foldl (fun acc st => if statusOrder st < statusOrder acc then st else acc) init

/-- Batch.status (models.py lines 91-115).  The item statuses are put in
a set (here: dedup of the list); if FAILED is present the batch is
FAILED; if exactly one distinct status is present it is returned; if the
set is non-empty the status with the lowest ordinal is returned;
an empty set yields None. -/
def batchStatus (itemStatuses : List OrderStatus) : Option OrderStatus :=
  let s := itemStatuses.dedup
  if OrderStatus.FAILED ∈ s then
    some OrderStatus.FAILED
  else
    match s with
    | [] => none
    | [st] => some st
    | st :: rest => some (minStatusFold st rest)

/-- OseoFile rows (models.py lines 637-648), restricted to the fields
the file-lifecycle logic reads and writes.  Timestamps are integers. -/
structure OseoFile where
  url : String
  expires_on : Int
  available : Bool
  downloads : Nat
  deriving DecidableEq, Repr

/-- OseoFile.can_be_deleted (models.py lines 650-659).  The user
preference user.delete_downloaded_files is passed in explicitly, and the
current time is a parameter instead of datetime.now. -/
def can_be_deleted (f : OseoFile) (delete_downloaded_files : Bool) (now : Int) : Bool :=
  if f.expires_on < now then
    true
  else
    if 0 < f.downloads ∧ delete_downloaded_files = true then
      true
    else
      false

/-- The concrete kind of a delivery option (models.py: the option
object with an onlinedataaccess, onlinedatadelivery or mediadelivery
child, each of the online kinds carrying a protocol). -/
inductive DeliveryKind where
  | onlinedataaccess (protocol : String)
  | onlinedatadelivery (protocol : String)
  | mediadelivery
  deriving DecidableEq, Repr

/-- A SelectedDeliveryOption row (models.py lines 732-759) restricted to
the fields read by OrderItem.export_delivery_options. -/
structure SelectedDeliveryOption where
  copies : Option Nat
  delivery_fee : Int
  kind : DeliveryKind
  deriving DecidableEq, Repr

/-- Modelled from the spec: errors.py is not under src, so the failure
raised when neither the item nor the order carries a delivery option
(the missing-related-object error that propagates out of
OrderItem.export_delivery_options, models.py line 586) is modelled as
the error the spec taxonomy calls ConfigurationError. -/
inductive ConfigurationError where
  | missingDeliveryOption
  deriving DecidableEq, Repr

/-- The resolution step at the start of OrderItem.export_delivery_options
(models.py lines 584-586): take the item delivery option when attached,
otherwise read the one of the parent order, and fail when the order does
not have one either. -/
def resolve_delivery (item_delivery : Option SelectedDeliveryOption)
    (order_delivery : Option SelectedDeliveryOption) :
    Except ConfigurationError SelectedDeliveryOption :=
  match item_delivery with
  | some d => Except.ok d
  | none =>
    match order_delivery with
    | some d => Except.ok d
    | none => Except.error ConfigurationError.missingDeliveryOption

/-- The flat mapping built by OrderItem.export_delivery_options
(models.py lines 587-603), restricted to the fields modelled in
SelectedDeliveryOption. -/
structure ExportedDelivery where
  copies : Option Nat
  delivery_fee : Int
  delivery_type : String
  protocol : Option String
  deriving DecidableEq, Repr

/-- OrderItem.export_delivery_options (models.py lines 583-603):
resolve the delivery option and project it to the flat mapping consumed
by the item processor. -/
def export_delivery_options (item_delivery : Option SelectedDeliveryOption)
    (order_delivery : Option SelectedDeliveryOption) :
    Except ConfigurationError ExportedDelivery :=
  (resolve_delivery item_delivery order_delivery).map (fun delivery =>
    match delivery.kind with
    | DeliveryKind.onlinedataaccess p =>
      { copies := delivery.copies, delivery_fee := delivery.delivery_fee,
        delivery_type := "onlinedataaccess", protocol := some p }
    | DeliveryKind.onlinedatadelivery p =>
      { copies := delivery.copies, delivery_fee := delivery.delivery_fee,
        delivery_type := "onlinedatadelivery", protocol := some p }
    | DeliveryKind.mediadelivery =>
      { copies := delivery.copies, delivery_fee := delivery.delivery_fee,
        delivery_type := "mediadelivery", protocol := none })

/-- The mutable per-item state touched by the item-processing task
(a CustomizableItem row, models.py lines 210-228, restricted to the
fields tasks.py reads and writes). -/
structure OrderItemState where
  status : OrderStatus
  additional_status_info : String
  completed_on : Option Int
  deriving DecidableEq, Repr

/-- Everything observable after one run of the item-processing celery
task: the saved item row, the OseoFile rows created, and the error, if
any, that escaped the task (none is ever set because the except clause
in tasks.py lines 156-160 catches every exception and does not
re-raise). -/
structure TaskOutcome where
  item : OrderItemState
  files : List OseoFile
  raised : Option String
  deriving DecidableEq, Repr

/-- process_online_data_access_item (tasks.py lines 115-162).  The item
is first marked IN_PRODUCTION; the production call of the item processor
is modelled by the processorResult parameter (ok carries the returned
url list and detail string, error carries the exception text).  On ok,
the detail string is recorded, and when some returned url is non-empty
(the truthiness test any(urls)) the item completes now, with one OseoFile
per url expiring after the availability window; with no truthy url the
item fails.  On error the item fails with the exception text recorded.
The except clause swallows the error, so raised is none in every
branch. -/
def process_online_data_access_item (item : OrderItemState) (now : Int)
    (item_availability_days : Int)
    (processorResult : Except String (List String × String)) : TaskOutcome :=
  let item := { item with
    status := OrderStatus.IN_PRODUCTION,
    additional_status_info := "Item is being processed" }
  match processorResult with
  | Except.ok (urls, details) =>
    let item := { item with additional_status_info := details }
    if urls.any (fun u => u != "") then
      let expiry_date := now + item_availability_days
      { item := { item with
          status := OrderStatus.COMPLETED, completed_on := some now },
        files := urls.map (fun url =>
          { url := url, expires_on := expiry_date,
            available := true, downloads := 0 }),
        raised := none }
    else
      { item := { item with status := OrderStatus.FAILED },
        files := [], raised := none }
  | Except.error e =>
    { item := { item with
        status := OrderStatus.FAILED, additional_status_info := e },
      files := [], raised := none }

/-- package_batch embeds _package_batch (tasks.py lines 364-391).  The
batch is represented by the list of file lists of its order items; the
packaging call of the item processor is modelled by the packResult
parameter.  On packaging failure the exception is re-raised (error).
On success every item has its files deleted and replaced by a single new
OseoFile holding the packed url, available, expiring after the
availability window. -/
def package_batch (itemFiles : List (List OseoFile))
    (packResult : Except String String) (now : Int)
    (item_availability_days : Int) :
    Except String (List (List OseoFile)) :=
  match packResult with
  | Except.error e => Except.error e
  | Except.ok packed =>
    Except.ok (itemFiles.map (fun _ =>
      [{ url := packed, expires_on := now + item_availability_days,
         available := true, downloads := 0 }]))

/-- Total number of OseoFile rows across the order items of a batch. -/
def totalFiles (itemFiles : List (List OseoFile)) : Nat :=
  (itemFiles.map List.length).sum

/-- Everything observable after one run of the delete_batch task: the
saved state of the targeted files and whether the cleaning-error alert
email was sent. -/
structure CleanupOutcome where
  files : List OseoFile
  alert_sent : Bool
  deriving DecidableEq, Repr

/-- delete_batch (tasks.py lines 250-283), after the to_delete set has
been determined.  The clean_files call of the item processor is modelled
by the cleanResult parameter.  On error the except clause sends the
cleaning-error alert email and does not re-raise; the loop after the
try block then marks every targeted file unavailable in every case. -/
def delete_batch (to_delete : List OseoFile)
    (cleanResult : Except String Unit) : CleanupOutcome :=
  let alert :=
    match cleanResult with
    | Except.ok _ => false
    | Except.error _ => true
  { files := to_delete.map (fun f => { f with available := false }),
    alert_sent := alert }

/-- An order-item row as read by update_product_order_status (id,
status and additional status info). -/
structure OrderItemRec where
  id : Nat
  status : OrderStatus
  additional_status_info : String
  deriving DecidableEq, Repr

/-- The mutable per-order state touched by the order-level tasks. -/
structure OrderState where
  status : Option OrderStatus
  additional_status_info : String
  completed_on : Option Int
  deriving DecidableEq, Repr

/-- Result of one run of update_product_order_status: either the task
re-raised the packaging exception after saving the order as FAILED, or
it ran to the end, with the saved order and whether the order-failed
notification email was sent. -/
inductive UpdateResult where
  | raised (order : OrderState) (e : String)
  | done (order : OrderState) (notified : Bool)
  deriving DecidableEq, Repr

/-- The failed-items message loop of update_product_order_status
(tasks.py lines 213-223): for every FAILED item the separator and one
line naming the item and its additional status info are appended. -/
def failedItemsMessage (items : List OrderItemRec) : String :=
  items.foldl (fun msg oi =>
    if oi.status = OrderStatus.FAILED then
      msg ++ "\n\t* Order item " ++ toString oi.id ++ ": "
        ++ oi.additional_status_info
    else
      msg) ""

/-- update_product_order_status (tasks.py lines 184-228).  The batch is
given by its order-item rows; the packaging backend outcome is the
packResult parameter, consulted only when the rollup is COMPLETED and a
packaging mode is set.  On packaging failure the order is saved FAILED
with the exception text and the exception is re-raised.  Otherwise, when
the old status differs from the recomputed one or the old status is
FAILED, the recomputed status is stored: COMPLETED also stores the
completion time and clears the info text; FAILED stores the aggregated
failure report and sends the order-failed email. -/
def update_product_order_status (order : OrderState)
    (items : List OrderItemRec) (packaging : String)
    (packResult : Except String Unit) (now : Int) (orderId : Nat) :
    UpdateResult :=
  let old_order_status := order.status
  let bs := batchStatus (items.map OrderItemRec.status)
  let packStep : Except String Unit :=
    if bs = some OrderStatus.COMPLETED ∧ packaging ≠ "" then
      packResult
    else
      Except.ok ()
  match packStep with
  | Except.error e =>
    UpdateResult.raised
      { order with
        status := some OrderStatus.FAILED,
        additional_status_info := e } e
  | Except.ok _ =>
    let new_order_status := bs
    if old_order_status ≠ new_order_status ∨
        old_order_status = some OrderStatus.FAILED then
      let order := { order with status := new_order_status }
      if new_order_status = some OrderStatus.COMPLETED then
        UpdateResult.done
          { order with
            completed_on := some now, additional_status_info := "" } false
      else
        if new_order_status = some OrderStatus.FAILED then
          UpdateResult.done
            { order with
              additional_status_info := "Order " ++ toString orderId
                ++ " has failed." ++ failedItemsMessage items } true
        else
          UpdateResult.done order false
    else
      UpdateResult.done order false

/-- The order-level effect of process_product_order (tasks.py lines
48-66): the order is saved IN_PRODUCTION with a fixed info text before
its batch is dispatched. -/
def process_product_order (order : OrderState) : OrderState :=
  { order with
    status := some OrderStatus.IN_PRODUCTION,
    additional_status_info := "Order is being processed" }

/-- Modelled from the spec: errors.py is not under src, so the
errors.ServerError raised with the text Repeated collection by
SubscriptionOrder.create_batch (models.py lines 546-548) is modelled as
the error the spec taxonomy calls DuplicateCollectionError, carrying the
repeated collection name. -/
inductive DuplicateCollectionError where
  | repeatedCollection (collection : String)
  deriving DecidableEq, Repr

/-- The admission loop of SubscriptionOrder.create_batch (models.py
lines 522-550): items are created one at a time; before each creation
the collections of the items created so far are collected and a repeated
collection aborts the whole creation with an error. -/
def subscription_admission (created : List String) :
    List String → Except DuplicateCollectionError (List String)
  | [] => Except.ok created
  | collection :: rest =>
    if collection ∈ created then
      Except.error (DuplicateCollectionError.repeatedCollection collection)
    else
      subscription_admission (created ++ [collection]) rest

/-- SubscriptionOrder.create_batch (models.py lines 522-550), with each
order-item specification represented by its collection name, the only
field the admission logic reads.  The returned list holds the items
created for the batch. -/
def subscription_create_batch (order_item_spec : List String) :
    Except DuplicateCollectionError (List String) :=
  subscription_admission [] order_item_spec

/-- Number of item-processing jobs dispatched for a subscription batch:
process_subscription_order_batch dispatches one job per created order
item (tasks.py lines 70-82 and 334-361), and is never reached when
create_batch raised, so an admission error dispatches zero jobs. -/
def jobs_dispatched (created : Except DuplicateCollectionError (List String)) : Nat :=
  match created with
  | Except.ok items => items.length
  | Except.error _ => 0

/-- Concrete sample item state used by witnesses and counterexamples. -/
def sampleItem : OrderItemState :=
  { status := OrderStatus.SUBMITTED, additional_status_info := "",
    completed_on := none }

/-- Concrete sample file used by counterexamples. -/
def sampleFileA : OseoFile :=
  { url := "url-a", expires_on := 10, available := true, downloads := 0 }

/-- Second concrete sample file used by counterexamples. -/
def sampleFileB : OseoFile :=
  { url := "url-b", expires_on := 10, available := true, downloads := 0 }

/-- Concrete order state used by the C2 and C6 theorems: an order in
production whose single batch is about to be recomputed. -/
def sampleOrder : OrderState :=
  { status := some OrderStatus.IN_PRODUCTION,
    additional_status_info := "", completed_on := none }

/-- Concrete batch content with one failed item, used by the C2
counterexample. -/
def sampleFailedItems : List OrderItemRec :=
  [{ id := 1, status := OrderStatus.FAILED,
     additional_status_info := "boom" }]

/-- The order state produced by the first recomputation of sampleOrder
over sampleFailedItems. -/
def sampleFailedOrder : OrderState :=
  { status := some OrderStatus.FAILED,
    additional_status_info := "Order 7 has failed.\n\t* Order item 1: boom",
    completed_on := none }

/-- Concrete delivery option attached to an item, used by the C9
witness. -/
def sampleDeliveryA : SelectedDeliveryOption :=
  { copies := some 1, delivery_fee := 0,
    kind := DeliveryKind.onlinedataaccess "ftp" }

/-- Concrete delivery option attached to an order, used by the C9
witness. -/
def sampleDeliveryB : SelectedDeliveryOption :=
  { copies := none, delivery_fee := 0, kind := DeliveryKind.mediadelivery }

/-! Helper lemmas about the minimum-finding loop and dedup. -/

theorem minStatusFold_mem (init : OrderStatus) (rest : List OrderStatus) :
    minStatusFold init rest ∈ init :: rest := by
  induction rest generalizing init with
  | nil => simp [minStatusFold]
  | cons c t ih =>
    have hrw : minStatusFold init (c :: t) =
        minStatusFold (if statusOrder c < statusOrder init then c else init) t := rfl
    rw [hrw]
    rcases List.mem_cons.mp
        (ih (if statusOrder c < statusOrder init then c else init)) with h1 | h2
    · rw [h1]
      split
      · simp
      · simp
    · simp [List.mem_cons, h2]

theorem minStatusFold_le (init : OrderStatus) (rest : List OrderStatus) :
    ∀ x ∈ init :: rest, statusOrder (minStatusFold init rest) ≤ statusOrder x := by
  induction rest generalizing init with
  | nil =>
    intro x hx
    rw [List.mem_singleton] at hx
    subst hx
    simp [minStatusFold]
  | cons c t ih =>
    intro x hx
    have hrw : minStatusFold init (c :: t) =
        minStatusFold (if statusOrder c < statusOrder init then c else init) t := rfl
    rw [hrw]
    have hhead := ih (if statusOrder c < statusOrder init then c else init) _
      (List.mem_cons_self _ _)
    have hle_init :
        statusOrder (if statusOrder c < statusOrder init then c else init)
          ≤ statusOrder init := by
      split <;> omega
    have hle_c :
        statusOrder (if statusOrder c < statusOrder init then c else init)
          ≤ statusOrder c := by
      split <;> omega
    rcases List.mem_cons.mp hx with h1 | h2
    · subst h1
      omega
    · rcases List.mem_cons.mp h2 with h3 | h4
      · subst h3
        omega
      · exact ih _ x (List.mem_cons_of_mem _ h4)

theorem nodup_all_eq_single {α : Type} (l : List α) (s : α)
    (hnd : l.Nodup) (hne : l ≠ []) (hall : ∀ x ∈ l, x = s) : l = [s] := by
  cases l with
  | nil => exact absurd rfl hne
  | cons a t =>
    have ha : a = s := hall a (List.mem_cons_self a t)
    cases t with
    | nil => rw [ha]
    | cons b u =>
      have hb : b = s := hall b (by simp)
      have hab : a = b := ha.trans hb.symm
      have : a ∉ b :: u := (List.nodup_cons.mp hnd).1
      exact absurd (hab ▸ List.mem_cons_self b u) this

/-- C1: the batch status computed from the order-item statuses follows
the rollup rule of Batch.status: FAILED dominates; a single shared
status is returned as is; otherwise the present status with the lowest
ordinal wins; a batch with no items has no status. -/
theorem C1_batch_status_rollup (items : List OrderStatus) :
    (OrderStatus.FAILED ∈ items → batchStatus items = some OrderStatus.FAILED)
  ∧ (∀ s, items ≠ [] → (∀ x ∈ items, x = s) → batchStatus items = some s)
  ∧ (items ≠ [] → OrderStatus.FAILED ∉ items →
      ∃ m, batchStatus items = some m ∧ m ∈ items ∧
        ∀ x ∈ items, statusOrder m ≤ statusOrder x)
  ∧ (items = [] → batchStatus items = none) := by
  refine ⟨?_, ?_, ?_, ?_⟩
  · intro hf
    unfold batchStatus
    rw [if_pos (List.mem_dedup.mpr hf)]
  · intro s hne hall
    by_cases hs : s = OrderStatus.FAILED
    · subst hs
      obtain ⟨a, ha⟩ := List.exists_mem_of_ne_nil items hne
      have hf : OrderStatus.FAILED ∈ items := (hall a ha) ▸ ha
      unfold batchStatus
      rw [if_pos (List.mem_dedup.mpr hf)]
    · have hnf : OrderStatus.FAILED ∉ items.dedup := by
        intro h
        exact hs ((hall _ (List.mem_dedup.mp h)).symm)
      have hd : items.dedup = [s] :=
        nodup_all_eq_single _ s (List.nodup_dedup items)
          (by simpa [List.dedup_eq_nil] using hne)
          (fun x hx => hall x (List.mem_dedup.mp hx))
      unfold batchStatus
      rw [if_neg hnf, hd]
  · intro hne hnf
    have hnfd : OrderStatus.FAILED ∉ items.dedup := fun h => hnf (List.mem_dedup.mp h)
    have hd_ne : items.dedup ≠ [] := by simpa [List.dedup_eq_nil] using hne
    cases hdd : items.dedup with
    | nil => exact absurd hdd hd_ne
    | cons st rest =>
      cases rest with
      | nil =>
        refine ⟨st, ?_, ?_, ?_⟩
        · unfold batchStatus
          rw [hdd]
          rw [if_neg (hdd ▸ hnfd)]
        · exact List.mem_dedup.mp (hdd ▸ List.mem_cons_self st [])
        · intro x hx
          have hxd : x ∈ items.dedup := List.mem_dedup.mpr hx
          rw [hdd, List.mem_singleton] at hxd
          subst hxd
          exact Nat.le_refl _
      | cons b u =>
        refine ⟨minStatusFold st (b :: u), ?_, ?_, ?_⟩
        · unfold batchStatus
          rw [hdd]
          rw [if_neg (hdd ▸ hnfd)]
        · exact List.mem_dedup.mp (hdd ▸ minStatusFold_mem st (b :: u))
        · intro x hx
          have hxd : x ∈ items.dedup := List.mem_dedup.mpr hx
          rw [hdd] at hxd
          exact minStatusFold_le st (b :: u) x hxd
  · intro h
    subst h
    rfl

/-- C1 witness: a batch holding an IN_PRODUCTION item and a FAILED item
rolls up to FAILED. -/
theorem C1_batch_status_rollup_witness :
    batchStatus [OrderStatus.IN_PRODUCTION, OrderStatus.FAILED]
      = some OrderStatus.FAILED :=
  (C1_batch_status_rollup [OrderStatus.IN_PRODUCTION, OrderStatus.FAILED]).1
    (by decide)

/-- C8: the deletion-eligibility check of OseoFile.can_be_deleted is
true exactly when the file is expired, or it has been downloaded and the
user prefers downloaded files to be deleted. -/
theorem C8_can_be_deleted_rule (f : OseoFile) (pref : Bool) (now : Int) :
    can_be_deleted f pref now =
      (decide (now > f.expires_on) || (decide (f.downloads > 0) && pref)) := by
  unfold can_be_deleted
  split
  · next h1 => simp [gt_iff_lt, h1]
  · next h1 =>
    split
    · next h2 => simp [gt_iff_lt, h1, h2.1, h2.2]
    · next h2 =>
      cases pref with
      | false => simp [gt_iff_lt, h1]
      | true =>
        have hd : ¬ 0 < f.downloads := fun h => h2 ⟨h, rfl⟩
        simp [gt_iff_lt, h1, hd]

/-- C5: when the production call of the item processor raises, the
item-processing job catches the error, marks the item FAILED, records
the error text as the additional status info, creates no file, and does
not let the error escape the job boundary. -/
theorem C5_item_failure_caught (item : OrderItemState) (now days : Int)
    (e : String) :
    process_online_data_access_item item now days (Except.error e) =
      { item := { status := OrderStatus.FAILED, additional_status_info := e,
                  completed_on := item.completed_on },
        files := [], raised := none } := rfl

/-- C9: delivery resolution returns the delivery option of the item when
one is attached, otherwise the one of the parent order unchanged, and
fails with the missing-delivery-option configuration error when neither
exists. -/
theorem C9_delivery_resolution (i o : Option SelectedDeliveryOption) :
    (∀ d, i = some d → resolve_delivery i o = Except.ok d)
  ∧ (i = none → ∀ d, o = some d → resolve_delivery i o = Except.ok d)
  ∧ (i = none → o = none →
      resolve_delivery i o = Except.error ConfigurationError.missingDeliveryOption) := by
  refine ⟨?_, ?_, ?_⟩
  · intro d h
    subst h
    rfl
  · intro hi d ho
    subst hi
    subst ho
    rfl
  · intro hi ho
    subst hi
    subst ho
    rfl

/-- C9 witness: an item carrying its own delivery option wins over the
order-level one. -/
theorem C9_delivery_resolution_witness :
    resolve_delivery (some sampleDeliveryA) (some sampleDeliveryB)
      = Except.ok sampleDeliveryA :=
  (C9_delivery_resolution (some sampleDeliveryA) (some sampleDeliveryB)).1
    sampleDeliveryA rfl

/-- C4 counterexample: a production call that returns successfully but
with an empty list of output locations leaves the item FAILED, not
COMPLETED, so a successful return alone does not complete the item. -/
theorem C4_counterexample :
    (process_online_data_access_item sampleItem 0 1
        (Except.ok ([], "processing finished"))).item.status
      = OrderStatus.FAILED
  ∧ OrderStatus.FAILED ≠ OrderStatus.COMPLETED := by
  refine ⟨rfl, by decide⟩

/-- C4 amended: when the production call returns successfully and at
least one returned output location is non-empty, the item completes now,
the detail string is recorded, one file is created per returned location,
and every created file is available and expires after the availability
window. -/
theorem C4_success_with_urls (item : OrderItemState) (now days : Int)
    (urls : List String) (details : String)
    (h : urls.any (fun u => u != "") = true) :
    ((process_online_data_access_item item now days
        (Except.ok (urls, details))).item.status = OrderStatus.COMPLETED)
  ∧ ((process_online_data_access_item item now days
        (Except.ok (urls, details))).item.completed_on = some now)
  ∧ ((process_online_data_access_item item now days
        (Except.ok (urls, details))).item.additional_status_info = details)
  ∧ ((process_online_data_access_item item now days
        (Except.ok (urls, details))).files.map OseoFile.url = urls)
  ∧ (∀ f ∈ (process_online_data_access_item item now days
        (Except.ok (urls, details))).files,
      f.available = true ∧ f.expires_on = now + days) := by
  have hrw : process_online_data_access_item item now days
      (Except.ok (urls, details)) =
      { item := { status := OrderStatus.COMPLETED,
                  additional_status_info := details, completed_on := some now },
        files := urls.map (fun url =>
          { url := url, expires_on := now + days,
            available := true, downloads := 0 }),
        raised := none } := by
    simp only [process_online_data_access_item, h, if_true]
  rw [hrw]
  refine ⟨rfl, rfl, rfl, ?_, ?_⟩
  · rw [List.map_map]
    exact List.map_id' urls
  · intro f hf
    rw [List.mem_map] at hf
    obtain ⟨u, _, rfl⟩ := hf
    exact ⟨rfl, rfl⟩

/-- C4 witness: the amended success path at a concrete input with one
non-empty returned location. -/
theorem C4_success_with_urls_witness :
    (process_online_data_access_item sampleItem 0 1
        (Except.ok (["fakeorder"], "Pretending to be a file"))).item.status
      = OrderStatus.COMPLETED :=
  (C4_success_with_urls sampleItem 0 1 ["fakeorder"]
    "Pretending to be a file" (by decide)).1

/-- C3 counterexample: packaging a two-item batch succeeds but leaves
two OseoFile rows (one per item, both holding the packed url), not a
single File record for the whole batch. -/
theorem C3_counterexample :
    package_batch [[sampleFileA], [sampleFileB]] (Except.ok "packed-url") 0 1 =
      Except.ok
        [[{ url := "packed-url", expires_on := 1, available := true, downloads := 0 }],
         [{ url := "packed-url", expires_on := 1, available := true, downloads := 0 }]]
  ∧ totalFiles
      [[{ url := "packed-url", expires_on := 1, available := true, downloads := 0 }],
       [{ url := "packed-url", expires_on := 1, available := true, downloads := 0 }]] = 2
  ∧ (2 : Nat) ≠ 1 := by
  refine ⟨rfl, by decide, by decide⟩

/-- C3 amended: after a successful packaging step every item of the
batch has its prior files deleted and replaced by exactly one new file
holding the shared packed url, available, expiring after the
availability window, so the batch ends with one file per item (all with
one shared url), not one file in total. -/
theorem C3_package_replaces_files (itemFiles : List (List OseoFile))
    (packed : String) (now days : Int) :
    package_batch itemFiles (Except.ok packed) now days =
      Except.ok (List.replicate itemFiles.length
        [{ url := packed, expires_on := now + days,
           available := true, downloads := 0 }])
  ∧ totalFiles (List.replicate itemFiles.length
        ([{ url := packed, expires_on := now + days,
            available := true, downloads := 0 }] : List OseoFile))
      = itemFiles.length := by
  constructor
  · simp only [package_batch]
    congr 1
    exact List.map_const' itemFiles _
  · simp [totalFiles, List.map_replicate, List.sum_replicate]

/-- C7 counterexample: when the clean-files call of the item processor
fails, the targeted file is still marked unavailable (and the alert is
sent), so the files do not keep available true on deletion failure. -/
theorem C7_counterexample :
    delete_batch [sampleFileA] (Except.error "disk error") =
      { files := [{ url := "url-a", expires_on := 10,
                    available := false, downloads := 0 }],
        alert_sent := true }
  ∧ ({ url := "url-a", expires_on := 10,
       available := false, downloads := 0 } : OseoFile).available ≠ true := by
  refine ⟨by decide, by decide⟩

/-- C7 amended: the cleanup sweep marks every targeted file unavailable
whether the deletion call of the item processor succeeds or fails; on
failure the operational alert email is sent, on success it is not. -/
theorem C7_cleanup_marks_unavailable (to_delete : List OseoFile) (e : String) :
    ((delete_batch to_delete (Except.error e)).files.all
        (fun f => f.available == false)) = true
  ∧ (delete_batch to_delete (Except.error e)).alert_sent = true
  ∧ ((delete_batch to_delete (Except.ok ())).files.all
        (fun f => f.available == false)) = true
  ∧ (delete_batch to_delete (Except.ok ())).alert_sent = false := by
  refine ⟨?_, rfl, ?_, rfl⟩
  · simp [delete_batch, List.all_eq_true]
  · simp [delete_batch, List.all_eq_true]

/-- Helper: the admission loop of the subscription batch raises the
repeated-collection error whenever the already-created collections
together with the remaining specifications contain a duplicate. -/
theorem subscription_admission_dup (specs : List String) :
    ∀ created : List String, created.Nodup → ¬ (created ++ specs).Nodup →
      ∃ c, subscription_admission created specs =
        Except.error (DuplicateCollectionError.repeatedCollection c) := by
  induction specs with
  | nil =>
    intro created hnd hdup
    rw [List.append_nil] at hdup
    exact absurd hnd hdup
  | cons c rest ih =>
    intro created hnd hdup
    by_cases hc : c ∈ created
    · exact ⟨c, by simp [subscription_admission, hc]⟩
    · have h1 : (created ++ [c]).Nodup := by
        rw [List.nodup_append]
        refine ⟨hnd, List.nodup_singleton c, ?_⟩
        intro x hx hx1
        rw [List.mem_singleton] at hx1
        subst hx1
        exact hc hx
      have h2 : ¬ ((created ++ [c]) ++ rest).Nodup := by
        rw [List.append_assoc, List.singleton_append]
        exact hdup
      obtain ⟨x, hx⟩ := ih (created ++ [c]) h1 h2
      exact ⟨x, by simpa [subscription_admission, hc] using hx⟩

/-- C10: when the item specifications of a subscription batch contain a
repeated collection, batch creation fails with the duplicate-collection
error and zero item-processing jobs are dispatched for the batch. -/
theorem C10_duplicate_collection_admission (specs : List String)
    (h : ¬ specs.Nodup) :
    ∃ c, subscription_create_batch specs =
        Except.error (DuplicateCollectionError.repeatedCollection c)
      ∧ jobs_dispatched (subscription_create_batch specs) = 0 := by
  obtain ⟨c, hc⟩ :=
    subscription_admission_dup specs [] List.nodup_nil (by simpa using h)
  refine ⟨c, ?_, ?_⟩
  · exact hc
  · show jobs_dispatched (subscription_admission [] specs) = 0
    rw [hc]
    rfl

/-- C10 witness: two item specifications for the same collection are
rejected with zero jobs dispatched. -/
theorem C10_duplicate_collection_admission_witness :
    ∃ c, subscription_create_batch ["collection-1", "collection-1"] =
        Except.error (DuplicateCollectionError.repeatedCollection c)
      ∧ jobs_dispatched
          (subscription_create_batch ["collection-1", "collection-1"]) = 0 :=
  C10_duplicate_collection_admission ["collection-1", "collection-1"]
    (by decide)

/-- Helper: when the packaging backend succeeds, one run of
update_product_order_status always finishes, stores exactly the batch
rollup as the order status, and sends the order-failed email exactly
when the update branch is entered with a FAILED rollup. -/
theorem update_ok_shape (order : OrderState) (items : List OrderItemRec)
    (packaging : String) (now : Int) (oid : Nat) :
    ∀ o n, update_product_order_status order items packaging
        (Except.ok ()) now oid = UpdateResult.done o n →
      o.status = batchStatus (items.map OrderItemRec.status)
    ∧ (n = true ↔
        ((order.status ≠ batchStatus (items.map OrderItemRec.status)
            ∨ order.status = some OrderStatus.FAILED)
          ∧ batchStatus (items.map OrderItemRec.status)
              = some OrderStatus.FAILED)) := by
  intro o n h
  simp only [update_product_order_status, ite_self] at h
  split at h
  · next hcond =>
    split at h
    · next hcompl =>
      injection h with h1 h2
      subst h1
      subst h2
      refine ⟨rfl, ?_⟩
      simp [hcompl]
    · next hcompl =>
      split at h
      · next hfail =>
        injection h with h1 h2
        subst h1
        subst h2
        refine ⟨rfl, ?_⟩
        simp only [hfail, and_true, true_iff]
        tauto
      · next hfail =>
        injection h with h1 h2
        subst h1
        subst h2
        refine ⟨rfl, ?_⟩
        simp [hfail]
  · next hcond =>
    injection h with h1 h2
    subst h1
    subst h2
    rw [not_or] at hcond
    obtain ⟨hcond1, hcond2⟩ := hcond
    rw [not_ne_iff] at hcond1
    rw [hcond1] at hcond2
    refine ⟨hcond1, ?_⟩
    simp [hcond1, hcond2]

/-- C2 counterexample: for an order whose single batch holds one FAILED
item, two consecutive recomputations with no item change each send the
order-failed email, so the second run does send a second notification
(through the old-status-is-FAILED re-entry of the update branch). -/
theorem C2_counterexample :
    update_product_order_status sampleOrder sampleFailedItems ""
        (Except.ok ()) 0 7 = UpdateResult.done sampleFailedOrder true
  ∧ update_product_order_status sampleFailedOrder sampleFailedItems ""
        (Except.ok ()) 0 7 = UpdateResult.done sampleFailedOrder true := by
  refine ⟨by decide, by decide⟩

/-- C2 amended: with the packaging backend succeeding, recomputing the
order status twice in a row with no intervening item change yields the
same order status both times, and the second run sends a notification
exactly when that status is FAILED (a FAILED order is re-notified on
every recomputation; for any other status no second notification is
sent). -/
theorem C2_recompute_twice (order : OrderState) (items : List OrderItemRec)
    (packaging : String) (now1 now2 : Int) (oid : Nat) :
    ∀ o1 n1, update_product_order_status order items packaging
        (Except.ok ()) now1 oid = UpdateResult.done o1 n1 →
    ∀ o2 n2, update_product_order_status o1 items packaging
        (Except.ok ()) now2 oid = UpdateResult.done o2 n2 →
      o2.status = o1.status
    ∧ (n2 = true ↔
        batchStatus (items.map OrderItemRec.status)
          = some OrderStatus.FAILED) := by
  intro o1 n1 h1 o2 n2 h2
  obtain ⟨ho1, _⟩ := update_ok_shape order items packaging now1 oid o1 n1 h1
  obtain ⟨ho2, hn2⟩ := update_ok_shape o1 items packaging now2 oid o2 n2 h2
  refine ⟨ho2.trans ho1.symm, ?_⟩
  rw [hn2, ho1]
  constructor
  · rintro ⟨-, hb⟩
    exact hb
  · intro hb
    exact ⟨Or.inr hb, hb⟩

/-- C2 witness: the amended statement at a concrete failed batch, where
both recomputations return the same saved order and the second one
notifies because the rollup is FAILED. -/
theorem C2_recompute_twice_witness :
    sampleFailedOrder.status = sampleFailedOrder.status
  ∧ (true = true ↔
      batchStatus (sampleFailedItems.map OrderItemRec.status)
        = some OrderStatus.FAILED) :=
  C2_recompute_twice sampleOrder sampleFailedItems "" 0 0 7
    sampleFailedOrder true (by decide) sampleFailedOrder true (by decide)

/-- C6 counterexample: process_product_order, which is neither the
rollup recomputation nor moderation nor a terminal user action, assigns
the order the status IN_PRODUCTION while the rollup of its batch (all
items SUBMITTED) is SUBMITTED. -/
theorem C6_counterexample :
    (process_product_order sampleOrder).status
      = some OrderStatus.IN_PRODUCTION
  ∧ batchStatus [OrderStatus.SUBMITTED] = some OrderStatus.SUBMITTED
  ∧ some OrderStatus.IN_PRODUCTION ≠ some OrderStatus.SUBMITTED := by
  refine ⟨rfl, by decide, by decide⟩

/-- C6 amended: the order status is assigned the batch rollup by every
completed run of the recomputation task, and the only other assignments
in the processing pipeline are the packaging-failure path, which stores
FAILED, and the order-processing kickoff, which stores IN_PRODUCTION
before any item has been processed, regardless of the rollup. -/
theorem C6_order_status_assignments (order : OrderState)
    (items : List OrderItemRec) (packaging : String)
    (pack : Except String Unit) (now : Int) (oid : Nat) :
    (∀ o n, update_product_order_status order items packaging
        (Except.ok ()) now oid = UpdateResult.done o n →
        o.status = batchStatus (items.map OrderItemRec.status))
  ∧ (∀ o e, update_product_order_status order items packaging
        pack now oid = UpdateResult.raised o e →
        o.status = some OrderStatus.FAILED)
  ∧ (process_product_order order).status = some OrderStatus.IN_PRODUCTION := by
  refine ⟨?_, ?_, rfl⟩
  · intro o n h
    exact (update_ok_shape order items packaging now oid o n h).1
  · intro o e h
    simp only [update_product_order_status] at h
    split at h
    · injection h with h1 h2
      subst h1
      rfl
    · split at h
      · split at h
        · simp at h
        · split at h
          · simp at h
          · simp at h
      · simp at h

/-- C6 witness: a completed recomputation over a fully COMPLETED batch
stores exactly the rollup of that batch on the order. -/
theorem C6_order_status_assignments_witness :
    ({ status := some OrderStatus.COMPLETED, additional_status_info := "",
       completed_on := some 0 } : OrderState).status
      = batchStatus (List.map OrderItemRec.status
          [{ id := 1, status := OrderStatus.COMPLETED,
             additional_status_info := "" }]) :=
  (C6_order_status_assignments sampleOrder
      [{ id := 1, status := OrderStatus.COMPLETED,
         additional_status_info := "" }]
      "" (Except.ok ()) 0 7).1
    { status := some OrderStatus.COMPLETED, additional_status_info := "",
      completed_on := some 0 } false (by decide)
